import Mathlib

/-
Verification of the session/token lifecycle manager of the
Authentication-Frontend-Boilerplate repository against its specification.

The development shallowly embeds the Zustand auth store (src/store/auth.ts),
its persistence middleware configuration, the cookie and default-header side
effects, and the Axios response interceptor of src/utility/apiClient.ts.

Modelling conventions:
- `AuthState` mirrors the store's in-memory state record.
- `Env` bundles the store state with the ambient effects the code mutates:
  the Axios default Authorization header, the `auth-token` cookie, the
  `auth-storage` localStorage record, and a log of backend endpoints called.
- Each store operation is a pure function from an `Env`, its arguments, and
  an oracle describing the backend's answer (consulted only if the code
  reaches the network stage) to a new `Env` and an outcome.
- The Zustand `persist` middleware (configured with `partialize` over
  user/token/isAuthenticated) writes the partialized projection to storage on
  every `set`; `commit` models exactly that.
- Thrown JavaScript values are modelled by `OpResult`: the store either
  returns normally, re-throws a structured `AuthError` produced by
  `handleAuthError`, or throws a plain `Error` (as `refreshToken` does when
  no token is present).
-/

namespace AuthFlow

/-- Identity record returned by the backend (interface User in auth.ts). -/
structure User where
  email : String
  firstName : String
  lastName : String
  role : String
deriving Repr, DecidableEq

/-- Structured error record (interface AuthError in auth.ts). -/
structure AuthError where
  message : String
  code : Option String
  field : Option String
  statusCode : Option Nat
deriving Repr, DecidableEq

/-- In-memory store state (interface AuthState's data fields in auth.ts). -/
structure AuthState where
  user : Option User
  token : Option String
  isAuthenticated : Bool
  isLoading : Bool
  error : Option AuthError
  resetToken : Option String
deriving Repr, DecidableEq

/-- The `initialState` object of auth.ts. -/
def initialState : AuthState :=
  { user := none, token := none, isAuthenticated := false,
    isLoading := false, error := none, resetToken := none }

/-- A cookie entry as written by `Cookies.set` in auth.ts. -/
structure CookieRecord where
  value : String
  expiresDays : Nat
  path : String
  sameSite : String
deriving Repr, DecidableEq

/-- The durable `auth-storage` record: the `partialize` projection of the
store state configured in the persist options of auth.ts. -/
structure PersistedRecord where
  user : Option User
  token : Option String
  isAuthenticated : Bool
deriving Repr, DecidableEq

/-- The whole observable world the store code mutates: its state, the Axios
default Authorization header, the `auth-token` cookie, the `auth-storage`
localStorage record, and the list of backend endpoints called so far. -/
structure Env where
  state : AuthState
  authHeader : Option String
  cookie : Option CookieRecord
  storage : Option PersistedRecord
  calls : List String
deriving Repr, DecidableEq

/-- Fresh environment at process start, before any persisted rehydration. -/
def initialEnv : Env :=
  { state := initialState, authHeader := none, cookie := none,
    storage := none, calls := [] }

/-- The `partialize` function from the persist options in auth.ts. -/
def partialize (s : AuthState) : PersistedRecord :=
  { user := s.user, token := s.token, isAuthenticated := s.isAuthenticated }

/-- A `set(...)` call under the persist middleware: replace the in-memory
state and write the partialized projection to the `auth-storage` record. -/
def commit (env : Env) (s : AuthState) : Env :=
  { env with state := s, storage := some (partialize s) }

/-- Record one backend network call against the given endpoint. -/
def callNet (env : Env) (endpointName : String) : Env :=
  { env with calls := env.calls ++ [endpointName] }

/-- JavaScript `String.prototype.trim`: strip leading and trailing
whitespace. Implemented structurally over the character list so that it
reduces inside the kernel. -/
def jsTrim (s : String) : String :=
  String.mk (((s.data.dropWhile Char.isWhitespace).reverse.dropWhile
    Char.isWhitespace).reverse)

/-- Character-list test that `pat` occurs at the start of the list. -/
def listStartsWith : List Char → List Char → Bool
  | [], _ => true
  | _ :: _, [] => false
  | a :: as, b :: bs => a = b && listStartsWith (a :: as).tail (b :: bs).tail

/-- Character-list test that `pat` occurs somewhere in the list. -/
def listHasInfix (pat : List Char) : List Char → Bool
  | [] => listStartsWith pat []
  | c :: cs => listStartsWith pat (c :: cs) || listHasInfix pat cs

/-- JavaScript `a || b` over an optional string: the fallback fires on a
missing field and on an empty (falsy) string. -/
def orDefault (m : Option String) (d : String) : String :=
  match m with
  | some s => if s = "" then d else s
  | none => d

/-- JavaScript `String.prototype.includes`. -/
def strIncludes (s pat : String) : Bool :=
  listHasInfix pat.data s.data

/-- The value caught at a failure boundary: an Axios error without a
response, an Axios error with a status and JSON body fields, a plain
JavaScript Error, or anything else. -/
inductive CaughtError where
  | axiosNoResponse
  | axiosResponse (status : Nat) (dataMessage : Option String)
      (dataField : Option String)
  | jsError (message : String)
  | other
deriving Repr, DecidableEq

/-- The `handleAuthError` classifier of auth.ts, translated branch by
branch from its switch over the response status. -/
def handleAuthError (e : CaughtError) : AuthError :=
  match e with
  | .axiosNoResponse =>
      { message := "Server is unreachable. Please try again later.",
        code := some "NETWORK_ERROR", field := none, statusCode := none }
  | .axiosResponse status dataMessage dataField =>
      if status = 400 then
        { message := orDefault dataMessage "Invalid request data",
          code := some "INVALID_REQUEST", field := dataField,
          statusCode := some 400 }
      else if status = 401 then
        { message := orDefault dataMessage "Invalid credentials",
          code := some "UNAUTHORIZED", field := none, statusCode := some 401 }
      else if status = 403 then
        { message := orDefault dataMessage "Access forbidden",
          code := some "FORBIDDEN", field := none, statusCode := some 403 }
      else if status = 404 then
        { message := orDefault dataMessage "Resource not found",
          code := some "NOT_FOUND", field := none, statusCode := some 404 }
      else if status = 409 then
        { message := orDefault dataMessage "Resource already exists",
          code := some "CONFLICT", field := dataField, statusCode := some 409 }
      else if status = 422 then
        { message := orDefault dataMessage "Validation failed",
          code := some "VALIDATION_ERROR", field := dataField,
          statusCode := some 422 }
      else if status = 429 then
        { message := "Too many requests. Please try again later.",
          code := some "RATE_LIMITED", field := none, statusCode := some 429 }
      else if status = 500 then
        { message := "Server error. Please try again later.",
          code := some "SERVER_ERROR", field := none, statusCode := some 500 }
      else
        { message := orDefault dataMessage "An unexpected error occurred",
          code := some "UNKNOWN_ERROR", field := none,
          statusCode := some status }
  | .jsError message =>
      if strIncludes message "Network Error" then
        { message := "Network error. Please check your connection.",
          code := some "NETWORK_ERROR", field := none, statusCode := none }
      else
        { message := message, code := some "GENERIC_ERROR", field := none,
          statusCode := none }
  | .other =>
      { message := "An unexpected error occurred",
        code := some "UNKNOWN_ERROR", field := none, statusCode := none }

/-- Outcome of a store operation: normal return, a re-thrown structured
AuthError, or a thrown plain JavaScript Error carrying only a message. -/
inductive OpResult (α : Type) where
  | ok (a : α)
  | thrownAuthError (e : AuthError)
  | thrownPlain (message : String)
deriving Repr, DecidableEq

/-- Backend answer for an endpoint returning a user record. -/
inductive UserNet where
  | ok (user : User)
  | err (e : CaughtError)
deriving Repr, DecidableEq

/-- Backend answer for an endpoint returning a user and a token. -/
inductive LoginNet where
  | ok (user : User) (token : String)
  | err (e : CaughtError)
deriving Repr, DecidableEq

/-- Backend answer for an endpoint returning only a token. -/
inductive RefreshNet where
  | ok (newToken : String)
  | err (e : CaughtError)
deriving Repr, DecidableEq

/-- Backend answer for an endpoint whose body the store ignores. -/
inductive UnitNet where
  | ok
  | err (e : CaughtError)
deriving Repr, DecidableEq

/-- The `signUp` action of auth.ts: loading/error reset, the three local
validation checks (name, email, password match — in source order), then the
register call; success stores the user with `isAuthenticated:false`, failure
clears the user and commits the classified error before re-throwing. -/
def signUp (env : Env) (name email password confirm_password : String)
    (net : UserNet) : Env × OpResult Unit :=
  let env1 := commit env
    { env.state with isLoading := true, error := none }
  let fail := fun (msg : String) =>
    let authError := handleAuthError (.jsError msg)
    (commit env1
      { env1.state with
        user := none, isAuthenticated := false,
        isLoading := false, error := some authError },
      OpResult.thrownAuthError authError)
  if jsTrim name = "" then fail "Name is required"
  else if jsTrim email = "" then fail "Email is required"
  else if password ≠ confirm_password then fail "Passwords do not match"
  else
    let env2 := callNet env1 "register"
    match net with
    | .ok user =>
        (commit env2
          { env2.state with
            user := some user,
            isAuthenticated := false, isLoading := false, error := none },
          OpResult.ok ())
    | .err e =>
        let authError := handleAuthError e
        (commit env2
          { env2.state with
            user := none,
            isAuthenticated := false, isLoading := false,
            error := some authError },
          OpResult.thrownAuthError authError)

/-- The `logIn` action of auth.ts: loading/error reset, local checks on
email and password, the login call; success sets the Authorization default
header, writes the `auth-token` cookie (7 days, path "/", SameSite Lax) and
commits the authenticated state; failure deletes the header and commits the
fully cleared state with the classified error before re-throwing. -/
def logIn (env : Env) (email password : String) (net : LoginNet) :
    Env × OpResult Unit :=
  let env1 := commit env
    { env.state with isLoading := true, error := none }
  let fail := fun (env' : Env) (e : CaughtError) =>
    let authError := handleAuthError e
    let env'' := { env' with authHeader := none }
    (commit env''
      { env''.state with
        user := none, token := none,
        isAuthenticated := false, isLoading := false,
        error := some authError },
      OpResult.thrownAuthError authError)
  if jsTrim email = "" then fail env1 (.jsError "Email is required")
  else if password = "" then fail env1 (.jsError "Password is required")
  else
    let env2 := callNet env1 "login"
    match net with
    | .ok user token =>
        let env3 := { env2 with
          authHeader := some ("Bearer " ++ token),
          cookie := some
            { value := token, expiresDays := 7, path := "/",
              sameSite := "Lax" } }
        (commit env3
          { env3.state with
            user := some user,
            token := some token, isAuthenticated := true,
            isLoading := false, error := none },
          OpResult.ok ())
    | .err e => fail env2 e

/-- The `clearToken` action of auth.ts: `set(\x7b token: null \x7d)`. -/
def clearToken (env : Env) : Env :=
  commit env { env.state with token := none }

/-- The `clearError` action of auth.ts: `set(\x7b error: null \x7d)`. -/
def clearError (env : Env) : Env :=
  commit env { env.state with error := none }

/-- The `logOut` action of auth.ts: when a token is present, remove the
cookie and the `auth-storage` record, commit the cleared state (the persist
middleware thereby rewrites `auth-storage` with the empty projection), and
delete the Authorization default header; without a token it does nothing.
It never throws. -/
def logOut (env : Env) : Env :=
  match env.state.token with
  | none => env
  | some _ =>
      let env1 := { env with cookie := none, storage := none }
      let env2 := commit env1
        { env1.state with
          user := none, token := none,
          isAuthenticated := false, error := none }
      { env2 with authHeader := none }

/-- The `requestPasswordReset` action of auth.ts. -/
def requestPasswordReset (env : Env) (email : String) (net : UnitNet) :
    Env × OpResult (Bool × String) :=
  let env1 := commit env
    { env.state with isLoading := true, error := none }
  let fail := fun (env' : Env) (e : CaughtError) =>
    let authError := handleAuthError e
    (commit env'
      { env'.state with
        isLoading := false,
        error := some authError },
      OpResult.thrownAuthError authError)
  if jsTrim email = "" then fail env1 (.jsError "Email is required")
  else
    let env2 := callNet env1 "request-password-reset"
    match net with
    | .ok =>
        (commit env2 { env2.state with isLoading := false },
          OpResult.ok (true, "Password reset email sent"))
    | .err e => fail env2 e

/-- The `resendVerificationEmail` action of auth.ts. -/
def resendVerificationEmail (env : Env) (email : String) (net : UnitNet) :
    Env × OpResult (Bool × String) :=
  let env1 := commit env
    { env.state with isLoading := true, error := none }
  let fail := fun (env' : Env) (e : CaughtError) =>
    let authError := handleAuthError e
    (commit env'
      { env'.state with
        isLoading := false,
        error := some authError },
      OpResult.thrownAuthError authError)
  if jsTrim email = "" then fail env1 (.jsError "Email is required")
  else
    let env2 := callNet env1 "resend-verification"
    match net with
    | .ok =>
        (commit env2 { env2.state with isLoading := false },
          OpResult.ok (true, "Verification email sent"))
    | .err e => fail env2 e

/-- The `verifyEmail` action of auth.ts. -/
def verifyEmail (env : Env) (token : String) (net : UnitNet) :
    Env × OpResult (Bool × String) :=
  let env1 := commit env
    { env.state with isLoading := true, error := none }
  let fail := fun (env' : Env) (e : CaughtError) =>
    let authError := handleAuthError e
    (commit env'
      { env'.state with
        isLoading := false,
        error := some authError },
      OpResult.thrownAuthError authError)
  if token = "" then fail env1 (.jsError "Verification token is required")
  else
    let env2 := callNet env1 "verify"
    match net with
    | .ok =>
        (commit env2 { env2.state with isLoading := false },
          OpResult.ok (true, "Email verified successfully"))
    | .err e => fail env2 e

/-- The `passwordReset` action of auth.ts. -/
def passwordReset (env : Env) (password confirm_password token : String)
    (net : UnitNet) : Env × OpResult (Bool × String) :=
  let env1 := commit env
    { env.state with isLoading := true, error := none }
  let fail := fun (env' : Env) (e : CaughtError) =>
    let authError := handleAuthError e
    (commit env'
      { env'.state with
        isLoading := false,
        error := some authError },
      OpResult.thrownAuthError authError)
  if password = "" then fail env1 (.jsError "Password is required")
  else if password ≠ confirm_password then
    fail env1 (.jsError "Passwords do not match")
  else if token = "" then fail env1 (.jsError "Reset token is required")
  else
    let env2 := callNet env1 "reset-password"
    match net with
    | .ok =>
        (commit env2 { env2.state with isLoading := false },
          OpResult.ok (true, "Password reset successfully"))
    | .err e => fail env2 e

/-- The `googleLogin` action of auth.ts: like logIn on success, but its
failure path only resets loading and commits the error (it does not clear
user, token or the header). -/
def googleLogin (env : Env) (code : String) (net : LoginNet) :
    Env × OpResult Unit :=
  let env1 := commit env
    { env.state with isLoading := true, error := none }
  let fail := fun (env' : Env) (e : CaughtError) =>
    let authError := handleAuthError e
    (commit env'
      { env'.state with
        isLoading := false,
        error := some authError },
      OpResult.thrownAuthError authError)
  if code = "" then fail env1 (.jsError "Google authentication code is required")
  else
    let env2 := callNet env1 "google-login"
    match net with
    | .ok user token =>
        let env3 := { env2 with
          authHeader := some ("Bearer " ++ token),
          cookie := some
            { value := token, expiresDays := 7, path := "/",
              sameSite := "Lax" } }
        (commit env3
          { env3.state with
            user := some user,
            token := some token, isAuthenticated := true,
            isLoading := false, error := none },
          OpResult.ok ())
    | .err e => fail env2 e

/-- First half of `refreshToken` in auth.ts, up to its suspension at the
network boundary: read the token; with none, throw the plain Error without
touching the state or the network (signalled by `none`); with a token, set
loading and issue the renewal call. -/
def refreshIssue (env : Env) : Env × Option String :=
  match env.state.token with
  | none => (env, none)
  | some t =>
      let env1 := commit env { env.state with isLoading := true }
      (callNet env1 "refresh-token", some t)

/-- Second half of `refreshToken` in auth.ts, from the network response on:
success installs the new token in the header, the cookie and the state;
failure classifies the error, performs `logOut()` and re-throws. -/
def refreshResolve (env : Env) (net : RefreshNet) : Env × OpResult Unit :=
  match net with
  | .ok newToken =>
      let env1 := { env with
        authHeader := some ("Bearer " ++ newToken),
        cookie := some
          { value := newToken, expiresDays := 7, path := "/",
            sameSite := "Lax" } }
      (commit env1
        { env1.state with
          token := some newToken,
          isLoading := false, error := none },
        OpResult.ok ())
  | .err e =>
      let authError := handleAuthError e
      (logOut env, OpResult.thrownAuthError authError)

/-- The `refreshToken` action of auth.ts as one sequential run. -/
def refreshToken (env : Env) (net : RefreshNet) : Env × OpResult Unit :=
  match refreshIssue env with
  | (env1, none) => (env1, OpResult.thrownPlain "No token to refresh")
  | (env1, some _) => refreshResolve env1 net

/-
Request gateway (src/utility/apiClient.ts): the response interceptor on the
apiClient Axios instance. A response is either a success payload or an HTTP
failure status. Exactly the code's control flow is modelled: on a 401 whose
request config does not yet carry `retry`, the flag is set, the store's
refreshToken runs, and on its success with a token present the original
request is redispatched once through the same interceptor; every other path
rejects with the error at hand. `resps k` is the backend's answer to the
k-th physical send of this logical request; the Nat returned counts those
sends.
-/

/-- Backend answer to a single physical dispatch through the gateway. -/
inductive Resp where
  | ok (payload : String)
  | errStatus (status : Nat)
deriving Repr, DecidableEq

/-- What the gateway ultimately delivers to the caller. -/
inductive GwOutcome where
  | success (payload : String)
  | failure (status : Nat)
deriving Repr, DecidableEq

/-- One pass of the apiClient response interceptor for a request whose config
already carries the retry mark: any failure is rejected as-is. -/
def gatewayRetried (env : Env) (resp : Resp) : Env × GwOutcome :=
  match resp with
  | .ok p => (env, .success p)
  | .errStatus s => (env, .failure s)

/-- A logical request through the gateway, entered with the retry mark clear
(`originalRequest.retry` unset): dispatch, and on a 401 mark it, run
`refreshToken`, and on refresh success with a token in the store replay the
request once; a failed refresh additionally runs `logOut` and rejects the
original error. Returns the environment, the caller-visible outcome, and the
number of physical sends. -/
def gatewayRun (env : Env) (resps : Nat → Resp) (rnet : RefreshNet) :
    Env × GwOutcome × Nat :=
  match resps 0 with
  | .ok p => (env, .success p, 1)
  | .errStatus s =>
      if s = 401 then
        match refreshToken env rnet with
        | (env1, .ok _) =>
            match env1.state.token with
            | some _ =>
                let (env2, out) := gatewayRetried env1 (resps 1)
                (env2, out, 2)
            | none => (env1, .failure s, 1)
        | (env1, _) => (logOut env1, .failure s, 1)
      else (env, .failure s, 1)

/-
Concurrency model for refreshToken. The spec's scheduling model is a single
thread with suspension exactly at the network boundary, so a run of
refreshToken splits into `refreshIssue` (synchronous prefix, up to issuing
the renewal request) and `refreshResolve` (continuation on the response).
`CEvent.start i` runs task i's prefix; `CEvent.respond i r` delivers the
backend's answer `r` to task i's in-flight renewal call. The refresh
endpoint's calls are counted in `Env.calls` by `refreshIssue`.
-/

/-- Progress of one refreshToken invocation. -/
inductive TaskPhase where
  | ready
  | inFlight (sentToken : String)
  | doneOk
  | doneErrAuth
  | doneErrPlain
deriving Repr, DecidableEq

/-- Global state of the concurrent system: shared environment plus each
invocation's progress. -/
structure CState where
  env : Env
  tasks : List TaskPhase
deriving Repr, DecidableEq

/-- A scheduler event: start a pending invocation, or deliver a network
response to an in-flight one. -/
inductive CEvent where
  | start (i : Nat)
  | respond (i : Nat) (r : RefreshNet)
deriving Repr, DecidableEq

/-- Execute one scheduler event against the shared environment. -/
def cStep (cs : CState) (ev : CEvent) : CState :=
  match ev with
  | .start i =>
      match cs.tasks.get? i with
      | some TaskPhase.ready =>
          match refreshIssue cs.env with
          | (env', none) =>
              { env := env', tasks := cs.tasks.set i TaskPhase.doneErrPlain }
          | (env', some t) =>
              { env := env', tasks := cs.tasks.set i (TaskPhase.inFlight t) }
      | _ => cs
  | .respond i r =>
      match cs.tasks.get? i with
      | some (TaskPhase.inFlight _) =>
          match refreshResolve cs.env r with
          | (env', OpResult.ok _) =>
              { env := env', tasks := cs.tasks.set i TaskPhase.doneOk }
          | (env', _) =>
              { env := env', tasks := cs.tasks.set i TaskPhase.doneErrAuth }
      | _ => cs

/-- Run a whole schedule of events. -/
def runSchedule (cs : CState) (evs : List CEvent) : CState :=
  evs.foldl cStep cs

/-- Number of renewal calls issued to the backend so far. -/
def renewalCalls (env : Env) : Nat :=
  env.calls.count "refresh-token"

/-- The code of a thrown structured error, if the outcome is one. -/
def thrownCode {α : Type} (r : OpResult α) : Option String :=
  match r with
  | .thrownAuthError e => e.code
  | _ => none

/-- The data-model invariant of the spec: an authenticated session holds a
credential. -/
def SessionInv (env : Env) : Prop :=
  env.state.isAuthenticated = true → env.state.token.isSome = true

instance (env : Env) : Decidable (SessionInv env) := by
  unfold SessionInv
  infer_instance

/-- A sample identity record for concrete runs. -/
def demoUser : User :=
  { email := "user@example.com", firstName := "Demo", lastName := "User",
    role := "user" }

/-- A reachable authenticated environment: the result of a successful logIn
from the fresh environment, holding token "abc". -/
def envAuth : Env :=
  (logIn initialEnv "user@example.com" "secret123"
    (LoginNet.ok demoUser "abc")).1

/-- A reachable environment right after a successful signUp from the fresh
environment: user present, no credential, not authenticated. -/
def envSignedUp : Env :=
  (signUp initialEnv "Jo" "a@b.com" "p1" "p1" (UserNet.ok demoUser)).1

/-- Two refreshToken invocations pending against the authenticated
environment, none started yet. -/
def twoRefreshInit : CState :=
  { env := envAuth, tasks := [TaskPhase.ready, TaskPhase.ready] }

/-- The natural single-threaded schedule for two concurrent invocations:
both run their synchronous prefix before either network response arrives,
then each response is delivered. -/
def twoRefreshSchedule : List CEvent :=
  [CEvent.start 0, CEvent.start 1,
   CEvent.respond 0 (RefreshNet.ok "n1"), CEvent.respond 1 (RefreshNet.ok "n2")]

/-- A backend that answers 401 to every physical send. -/
def always401 : Nat → Resp := fun _ => Resp.errStatus 401

/-- A backend login answer of HTTP 401 with body message "Invalid
credentials". -/
def invalidCredsNet : LoginNet :=
  LoginNet.err (CaughtError.axiosResponse 401 (some "Invalid credentials") none)

/-- The structured error the classifier produces for that 401 answer. -/
def invalidCredsError : AuthError :=
  { message := "Invalid credentials", code := some "UNAUTHORIZED",
    field := none, statusCode := some 401 }

/-- A reachable environment with a user record, no credential, and a pending
error: a successful signUp followed by a locally failing resend request. -/
def envUserWithError : Env :=
  (resendVerificationEmail envSignedUp "" UnitNet.ok).1

/-
Theorems. Helper lemmas come first; each claim's designated theorem carries
a doc comment naming the claim.
-/

/-- Every branch of signUp commits a state with `isAuthenticated := false`:
registration never grants a session. -/
lemma signUp_not_authenticated (env : Env) (n e p c : String) (net : UserNet) :
    (signUp env n e p c net).1.state.isAuthenticated = false := by
  simp only [signUp]
  split_ifs <;> cases net <;> simp [commit, callNet, partialize]

lemma sessionInv_signUp (env : Env) (n e p c : String) (net : UserNet) :
    SessionInv (signUp env n e p c net).1 := by
  intro h3
  rw [signUp_not_authenticated env n e p c net] at h3
  cases h3

lemma sessionInv_logOut (env : Env) (h : SessionInv env) :
    SessionInv (logOut env) := by
  cases h2 : env.state.token with
  | none =>
      unfold logOut
      rw [h2]
      exact h
  | some t =>
      unfold SessionInv logOut
      rw [h2]
      simp [commit]

lemma sessionInv_logIn (env : Env) (e p : String) (net : LoginNet) :
    SessionInv (logIn env e p net).1 := by
  unfold SessionInv
  simp only [logIn]
  split_ifs
  · simp [commit]
  · simp [commit]
  · cases net with
    | ok u t => simp [commit, callNet]
    | err er => simp [commit, callNet]

lemma sessionInv_requestPasswordReset (env : Env) (e : String) (net : UnitNet)
    (h : SessionInv env) : SessionInv (requestPasswordReset env e net).1 := by
  unfold SessionInv at h ⊢
  simp only [requestPasswordReset]
  split_ifs
  · simpa [commit] using h
  · cases net with
    | ok => simpa [commit, callNet] using h
    | err er => simpa [commit, callNet] using h

lemma sessionInv_resendVerificationEmail (env : Env) (e : String)
    (net : UnitNet) (h : SessionInv env) :
    SessionInv (resendVerificationEmail env e net).1 := by
  unfold SessionInv at h ⊢
  simp only [resendVerificationEmail]
  split_ifs
  · simpa [commit] using h
  · cases net with
    | ok => simpa [commit, callNet] using h
    | err er => simpa [commit, callNet] using h

lemma sessionInv_verifyEmail (env : Env) (t : String) (net : UnitNet)
    (h : SessionInv env) : SessionInv (verifyEmail env t net).1 := by
  unfold SessionInv at h ⊢
  simp only [verifyEmail]
  split_ifs
  · simpa [commit] using h
  · cases net with
    | ok => simpa [commit, callNet] using h
    | err er => simpa [commit, callNet] using h

lemma sessionInv_passwordReset (env : Env) (p c t : String) (net : UnitNet)
    (h : SessionInv env) : SessionInv (passwordReset env p c t net).1 := by
  unfold SessionInv at h ⊢
  simp only [passwordReset]
  split_ifs
  · simpa [commit] using h
  · simpa [commit] using h
  · simpa [commit] using h
  · cases net with
    | ok => simpa [commit, callNet] using h
    | err er => simpa [commit, callNet] using h

lemma sessionInv_googleLogin (env : Env) (c : String) (net : LoginNet)
    (h : SessionInv env) : SessionInv (googleLogin env c net).1 := by
  unfold SessionInv at h ⊢
  simp only [googleLogin]
  split_ifs
  · simpa [commit] using h
  · cases net with
    | ok u t => simp [commit, callNet]
    | err er => simpa [commit, callNet] using h

lemma sessionInv_refreshToken (env : Env) (net : RefreshNet)
    (h : SessionInv env) : SessionInv (refreshToken env net).1 := by
  simp only [refreshToken, refreshIssue]
  cases h2 : env.state.token with
  | none =>
      dsimp only
      exact h
  | some t =>
      dsimp only
      cases net with
      | ok nt =>
          unfold SessionInv refreshResolve
          simp [commit, callNet]
      | err er =>
          unfold refreshResolve
          apply sessionInv_logOut
          intro h3
          simp [commit, callNet]

lemma sessionInv_clearError (env : Env) (h : SessionInv env) :
    SessionInv (clearError env) := by
  unfold SessionInv at h ⊢
  simpa [clearError, commit] using h

/-- C1: two refreshToken invocations both arriving while no renewal is in
flight issue TWO backend renewal calls, not one. The schedule runs task 0 to
its network suspension (after which its renewal is in flight and task 1 is
still pending), then task 1, which also issues a renewal call; the claim
requires exactly one backend call, and requires the second caller to await
the first renewal instead of issuing its own. -/
theorem refresh_concurrent_duplicate_renewals :
    renewalCalls twoRefreshInit.env = 0 ∧
    renewalCalls (runSchedule twoRefreshInit [CEvent.start 0]).env = 1 ∧
    (runSchedule twoRefreshInit [CEvent.start 0]).tasks.get? 0 =
      some (TaskPhase.inFlight "abc") ∧
    (runSchedule twoRefreshInit [CEvent.start 0]).tasks.get? 1 =
      some TaskPhase.ready ∧
    renewalCalls
      (runSchedule twoRefreshInit [CEvent.start 0, CEvent.start 1]).env = 2 ∧
    renewalCalls (runSchedule twoRefreshInit twoRefreshSchedule).env = 2 := by
  decide

/-- C2 (counterexample): after a failing refreshToken from a reachable
authenticated environment, the persisted `auth-storage` record is NOT
deleted: logOut removes it, but its final `set` makes the persistence
middleware rewrite the record with the empty projection, so a record is
present when the operation completes. -/
theorem refresh_failure_record_survives :
    envAuth.state.token = some "abc" ∧
    (refreshToken envAuth (RefreshNet.err CaughtError.axiosNoResponse)).1.storage =
      some { user := none, token := none, isAuthenticated := false } ∧
    (refreshToken envAuth (RefreshNet.err CaughtError.axiosNoResponse)).1.storage ≠
      none := by
  decide

/-- C2 (amended): whenever refreshToken fails after a credential existed,
logOut runs before the classified error is re-thrown: the committed session
is empty (user and credential absent, not authenticated), the auth-token
cookie is deleted, the Authorization default header is removed, and the
persisted record is overwritten with the empty unauthenticated projection
(removed, then rewritten by the persistence layer on the logout commit)
rather than left deleted. -/
theorem refresh_failure_teardown (env : Env) (t : String) (e : CaughtError)
    (h : env.state.token = some t) :
    (refreshToken env (RefreshNet.err e)).2 =
      OpResult.thrownAuthError (handleAuthError e) ∧
    (refreshToken env (RefreshNet.err e)).1.state.user = none ∧
    (refreshToken env (RefreshNet.err e)).1.state.token = none ∧
    (refreshToken env (RefreshNet.err e)).1.state.isAuthenticated = false ∧
    (refreshToken env (RefreshNet.err e)).1.cookie = none ∧
    (refreshToken env (RefreshNet.err e)).1.authHeader = none ∧
    (refreshToken env (RefreshNet.err e)).1.storage =
      some { user := none, token := none, isAuthenticated := false } := by
  simp [refreshToken, refreshIssue, h, refreshResolve, logOut, commit, callNet,
    partialize]

/-- Witness for C2: the teardown applied to the authenticated environment
with a 500 backend answer. -/
theorem refresh_failure_teardown_witness :
    (refreshToken envAuth
        (RefreshNet.err (CaughtError.axiosResponse 500 none none))).2 =
      OpResult.thrownAuthError
        (handleAuthError (CaughtError.axiosResponse 500 none none)) ∧
    (refreshToken envAuth
        (RefreshNet.err (CaughtError.axiosResponse 500 none none))).1.state.user =
      none ∧
    (refreshToken envAuth
        (RefreshNet.err (CaughtError.axiosResponse 500 none none))).1.state.token =
      none ∧
    (refreshToken envAuth
        (RefreshNet.err (CaughtError.axiosResponse 500 none none))).1.state.isAuthenticated =
      false ∧
    (refreshToken envAuth
        (RefreshNet.err (CaughtError.axiosResponse 500 none none))).1.cookie =
      none ∧
    (refreshToken envAuth
        (RefreshNet.err (CaughtError.axiosResponse 500 none none))).1.authHeader =
      none ∧
    (refreshToken envAuth
        (RefreshNet.err (CaughtError.axiosResponse 500 none none))).1.storage =
      some { user := none, token := none, isAuthenticated := false } :=
  refresh_failure_teardown envAuth "abc" (CaughtError.axiosResponse 500 none none)
    (by decide)

/-- C3 (counterexample): clearToken, applied to a reachable authenticated
environment that satisfies the invariant, commits a session with
`authenticated = true` and no credential, so the invariant is not preserved
by every operation of the public surface. -/
theorem clearToken_breaks_invariant :
    SessionInv envAuth ∧
    (clearToken envAuth).state.isAuthenticated = true ∧
    (clearToken envAuth).state.token = none ∧
    ¬ SessionInv (clearToken envAuth) := by
  decide

/-- C3 (amended): the invariant "authenticated implies credential present"
holds in the initial session and is preserved by every operation of the
public surface EXCEPT clearToken: signUp, logIn, logOut,
requestPasswordReset, resendVerificationEmail, verifyEmail, passwordReset,
googleLogin, refreshToken and clearError all preserve it; clearToken alone
violates it. -/
theorem sessionInv_initial_and_preserved :
    SessionInv initialEnv ∧
    (∀ env n e p c net, SessionInv (signUp env n e p c net).1) ∧
    (∀ env e p net, SessionInv (logIn env e p net).1) ∧
    (∀ env, SessionInv env → SessionInv (logOut env)) ∧
    (∀ env e net, SessionInv env →
      SessionInv (requestPasswordReset env e net).1) ∧
    (∀ env e net, SessionInv env →
      SessionInv (resendVerificationEmail env e net).1) ∧
    (∀ env t net, SessionInv env → SessionInv (verifyEmail env t net).1) ∧
    (∀ env p c t net, SessionInv env →
      SessionInv (passwordReset env p c t net).1) ∧
    (∀ env c net, SessionInv env → SessionInv (googleLogin env c net).1) ∧
    (∀ env net, SessionInv env → SessionInv (refreshToken env net).1) ∧
    (∀ env, SessionInv env → SessionInv (clearError env)) :=
  ⟨by decide, sessionInv_signUp, sessionInv_logIn, sessionInv_logOut,
    sessionInv_requestPasswordReset, sessionInv_resendVerificationEmail,
    sessionInv_verifyEmail, sessionInv_passwordReset, sessionInv_googleLogin,
    sessionInv_refreshToken, sessionInv_clearError⟩

/-- Witness for C3: preservation applied to concrete runs from the
authenticated environment. -/
theorem sessionInv_initial_and_preserved_witness :
    SessionInv (logOut envAuth) ∧
    SessionInv (refreshToken envAuth (RefreshNet.ok "n")).1 :=
  ⟨sessionInv_initial_and_preserved.2.2.2.1 envAuth (by decide),
   sessionInv_initial_and_preserved.2.2.2.2.2.2.2.2.2.1 envAuth
     (RefreshNet.ok "n") (by decide)⟩

/-- C4 (counterexample): signUp("", "a@b.com", "x", "x") fails before any
network call but with kind GENERIC_ERROR, not VALIDATION (the code throws a
plain Error which the classifier maps to GENERIC_ERROR); moreover an empty
password with matching confirmation is not rejected locally at all — the
register call goes out. -/
theorem signUp_blank_name_generic_kind :
    (signUp initialEnv "" "a@b.com" "x" "x" (UserNet.ok demoUser)).1.calls =
      [] ∧
    (signUp initialEnv "" "a@b.com" "x" "x" (UserNet.ok demoUser)).2 =
      OpResult.thrownAuthError
        { message := "Name is required", code := some "GENERIC_ERROR",
          field := none, statusCode := none } ∧
    thrownCode (signUp initialEnv "" "a@b.com" "x" "x"
        (UserNet.ok demoUser)).2 ≠ some "VALIDATION" ∧
    thrownCode (signUp initialEnv "" "a@b.com" "x" "x"
        (UserNet.ok demoUser)).2 ≠ some "VALIDATION_ERROR" ∧
    (signUp initialEnv "Jo" "a@b.com" "" "" (UserNet.ok demoUser)).1.calls =
      ["register"] := by
  decide

/-- C4 (amended): whenever the name or the email is blank after trimming, or
the password differs from its confirmation, signUp fails immediately with a
structured error of kind GENERIC_ERROR and no network call is attempted. -/
theorem signUp_local_validation_short_circuit (env : Env)
    (n e p c : String) (net : UserNet)
    (h : jsTrim n = "" ∨ jsTrim e = "" ∨ p ≠ c) :
    (signUp env n e p c net).1.calls = env.calls ∧
    thrownCode (signUp env n e p c net).2 = some "GENERIC_ERROR" := by
  by_cases h1 : jsTrim n = ""
  · constructor
    · simp [signUp, h1, commit]
    · simp [signUp, h1, commit]
      decide
  · by_cases h2 : jsTrim e = ""
    · constructor
      · simp [signUp, h1, h2, commit]
      · simp [signUp, h1, h2, commit]
        decide
    · have h3 : p ≠ c := by tauto
      constructor
      · simp [signUp, h1, h2, h3, commit]
      · simp [signUp, h1, h2, h3, commit]
        decide

/-- Witness for C4: a whitespace-only email short-circuits the network. -/
theorem signUp_local_validation_short_circuit_witness :
    (signUp initialEnv "Jo" " " "x" "x" (UserNet.ok demoUser)).1.calls =
      initialEnv.calls ∧
    thrownCode (signUp initialEnv "Jo" " " "x" "x"
        (UserNet.ok demoUser)).2 = some "GENERIC_ERROR" :=
  signUp_local_validation_short_circuit initialEnv "Jo" " " "x" "x"
    (UserNet.ok demoUser) (Or.inr (Or.inl (by decide)))

/-- C5 (counterexample): refreshToken without a credential throws the plain
JavaScript Error "No token to refresh" — not a StructuredError, and in
particular not one of kind NO_SESSION (no such kind exists in the code) —
with no network call and no state change. -/
theorem refresh_without_token_unstructured :
    (refreshToken initialEnv (RefreshNet.ok "t")).2 =
      OpResult.thrownPlain "No token to refresh" ∧
    thrownCode (refreshToken initialEnv (RefreshNet.ok "t")).2 ≠
      some "NO_SESSION" ∧
    (refreshToken initialEnv (RefreshNet.ok "t")).1.calls = [] := by
  decide

/-- C5 (amended): whenever no credential exists, refreshToken fails
immediately by throwing the plain Error "No token to refresh", leaving the
whole environment unchanged and making no network call. -/
theorem refresh_without_token_immediate (env : Env) (net : RefreshNet)
    (h : env.state.token = none) :
    refreshToken env net = (env, OpResult.thrownPlain "No token to refresh") := by
  simp [refreshToken, refreshIssue, h]

/-- Witness for C5: the fresh environment has no credential. -/
theorem refresh_without_token_immediate_witness :
    refreshToken initialEnv (RefreshNet.ok "x") =
      (initialEnv, OpResult.thrownPlain "No token to refresh") :=
  refresh_without_token_immediate initialEnv (RefreshNet.ok "x") rfl

/-- C6: every failing logIn call — from any prior session — commits the
fully cleared session (user, credential and authenticated flag reset),
removes the credential from the Axios default header, stores the thrown
error as lastError, and re-throws it; when the backend answered HTTP 401
with message "Invalid credentials", the thrown error has kind UNAUTHORIZED
and that message. -/
theorem logIn_failure_clears_session (env : Env) (email pw : String)
    (net : LoginNet) (err : AuthError)
    (hfail : (logIn env email pw net).2 = OpResult.thrownAuthError err) :
    ((logIn env email pw net).1.state.user = none ∧
     (logIn env email pw net).1.state.token = none ∧
     (logIn env email pw net).1.state.isAuthenticated = false ∧
     (logIn env email pw net).1.authHeader = none ∧
     (logIn env email pw net).1.state.error = some err) ∧
    (net = LoginNet.err
        (CaughtError.axiosResponse 401 (some "Invalid credentials") none) →
      jsTrim email ≠ "" → pw ≠ "" →
      err = { message := "Invalid credentials", code := some "UNAUTHORIZED",
              field := none, statusCode := some 401 }) := by
  by_cases h1 : jsTrim email = ""
  · simp only [logIn, h1, if_true, reduceIte] at hfail ⊢
    constructor
    · simp only [OpResult.thrownAuthError.injEq] at hfail
      simp [commit, ← hfail]
    · intro hnet hne
      exact absurd rfl hne
  · by_cases h2 : pw = ""
    · simp only [logIn, if_neg h1, h2, reduceIte] at hfail ⊢
      constructor
      · simp only [OpResult.thrownAuthError.injEq] at hfail
        simp [commit, ← hfail]
      · intro hnet hne hpw
        exact absurd rfl hpw
    · cases net with
      | ok u t =>
          simp [logIn, h1, h2, commit, callNet] at hfail
      | err e =>
          simp only [logIn, if_neg h1, if_neg h2] at hfail ⊢
          constructor
          · simp only [OpResult.thrownAuthError.injEq] at hfail
            simp [commit, callNet, ← hfail]
          · intro hnet hne hpw
            have he : e = CaughtError.axiosResponse 401
                (some "Invalid credentials") none := by
              injection hnet
            simp only [OpResult.thrownAuthError.injEq] at hfail
            rw [← hfail, he]
            decide

/-- Witness for C6: a failing login against the 401 backend from the
authenticated environment. -/
theorem logIn_failure_clears_session_witness :
    (logIn envAuth "user@example.com" "bad" invalidCredsNet).1.state.user =
      none ∧
    (logIn envAuth "user@example.com" "bad" invalidCredsNet).1.state.token =
      none ∧
    (logIn envAuth "user@example.com" "bad"
        invalidCredsNet).1.state.isAuthenticated = false ∧
    (logIn envAuth "user@example.com" "bad" invalidCredsNet).1.authHeader =
      none ∧
    (logIn envAuth "user@example.com" "bad" invalidCredsNet).1.state.error =
      some invalidCredsError ∧
    invalidCredsError.code = some "UNAUTHORIZED" := by
  have h := logIn_failure_clears_session envAuth "user@example.com" "bad"
    invalidCredsNet invalidCredsError (by decide)
  exact ⟨h.1.1, h.1.2.1, h.1.2.2.1, h.1.2.2.2.1, h.1.2.2.2.2, by decide⟩

/-- C7: a logIn against a backend answering 200 with a user and a token
commits the authenticated session with that user and token, writes the
partialized record (exactly user, token, isAuthenticated) with the same
token to durable storage, sets the auth-token cookie with 7-day expiry,
path "/" and SameSite Lax, and installs the bearer token in the Axios
default Authorization header. -/
theorem logIn_success_commit (env : Env) (email pw : String) (u : User)
    (t : String) (h1 : jsTrim email ≠ "") (h2 : pw ≠ "") :
    logIn env email pw (LoginNet.ok u t) =
      ({ state :=
           { user := some u, token := some t, isAuthenticated := true,
             isLoading := false, error := none,
             resetToken := env.state.resetToken },
         authHeader := some ("Bearer " ++ t),
         cookie := some
           { value := t, expiresDays := 7, path := "/", sameSite := "Lax" },
         storage := some
           { user := some u, token := some t, isAuthenticated := true },
         calls := env.calls ++ ["login"] },
       OpResult.ok ()) := by
  simp [logIn, h1, h2, commit, callNet, partialize]

/-- Witness for C7: the Scenario A login from the fresh environment. -/
theorem logIn_success_commit_witness :
    logIn initialEnv "user@example.com" "secret123" (LoginNet.ok demoUser "abc") =
      ({ state :=
           { user := some demoUser, token := some "abc",
             isAuthenticated := true, isLoading := false, error := none,
             resetToken := initialEnv.state.resetToken },
         authHeader := some ("Bearer " ++ "abc"),
         cookie := some
           { value := "abc", expiresDays := 7, path := "/",
             sameSite := "Lax" },
         storage := some
           { user := some demoUser, token := some "abc",
             isAuthenticated := true },
         calls := initialEnv.calls ++ ["login"] },
       OpResult.ok ()) :=
  logIn_success_commit initialEnv "user@example.com" "secret123" demoUser "abc"
    (by decide) (by decide)

/-- C8: a logical request through the apiClient gateway performs at most two
physical sends, and when the first response is 401, the renewal succeeds,
and the replay is 401 again, the request is surfaced to the caller as a
failure after exactly one replay — never a second retry. -/
theorem gateway_unauthorized_retry_once (env : Env) (resps : Nat → Resp)
    (rnet : RefreshNet) :
    (gatewayRun env resps rnet).2.2 ≤ 2 ∧
    (∀ t nt, env.state.token = some t → rnet = RefreshNet.ok nt →
      resps 0 = Resp.errStatus 401 → resps 1 = Resp.errStatus 401 →
      (gatewayRun env resps rnet).2.1 = GwOutcome.failure 401 ∧
      (gatewayRun env resps rnet).2.2 = 2) := by
  constructor
  · unfold gatewayRun
    cases h0 : resps 0 with
    | ok p => simp
    | errStatus s =>
        by_cases hs : s = 401
        · simp only [hs, reduceIte]
          rcases hrt : refreshToken env rnet with ⟨env1, r⟩
          cases r with
          | ok a =>
              cases h1 : env1.state.token with
              | none => simp [h1]
              | some t2 =>
                  rcases hg : gatewayRetried env1 (resps 1) with ⟨env2, out⟩
                  simp [h1, hg]
          | thrownAuthError e => simp
          | thrownPlain m => simp
        · simp [hs]
  · intro t nt ht hrn h0 h1
    subst hrn
    have hsnd : (refreshToken env (RefreshNet.ok nt)).2 = OpResult.ok () := by
      simp [refreshToken, refreshIssue, ht, refreshResolve, commit, callNet]
    have hfst : (refreshToken env (RefreshNet.ok nt)).1.state.token =
        some nt := by
      simp [refreshToken, refreshIssue, ht, refreshResolve, commit, callNet]
    have hp : refreshToken env (RefreshNet.ok nt) =
        ((refreshToken env (RefreshNet.ok nt)).1, OpResult.ok ()) := by
      rw [← hsnd]
    constructor
    · simp only [gatewayRun, h0, reduceIte]
      rw [hp]
      simp [hfst, gatewayRetried, h1]
    · simp only [gatewayRun, h0, reduceIte]
      rw [hp]
      simp [hfst, gatewayRetried, h1]

/-- Witness for C8: the authenticated environment against a backend that
always answers 401, with a succeeding renewal. -/
theorem gateway_unauthorized_retry_once_witness :
    (gatewayRun envAuth always401 (RefreshNet.ok "n1")).2.1 =
      GwOutcome.failure 401 ∧
    (gatewayRun envAuth always401 (RefreshNet.ok "n1")).2.2 = 2 :=
  (gateway_unauthorized_retry_once envAuth always401 (RefreshNet.ok "n1")).2
    "abc" "n1" (by decide) rfl (by decide) (by decide)

/-- C9: logOut on a session without a credential is a complete no-op: every
session field, the cookie, the persisted record, the header and the call log
are left exactly as they were. -/
theorem logOut_without_credential_noop (env : Env)
    (h : env.state.token = none) : logOut env = env := by
  simp [logOut, h]

/-- Witness for C9: a post-signUp environment with a stored user and a
pending error survives logOut unchanged. -/
theorem logOut_without_credential_noop_witness :
    logOut envUserWithError = envUserWithError :=
  logOut_without_credential_noop envUserWithError (by decide)

/-- C10: when refreshToken reaches the network and fails, the committed
session still has `loading = true` (neither the failure path nor the logOut
it triggers resets it) and `lastError = none` (refreshToken commits no
structured error; logOut clears the error field). -/
theorem refresh_failure_keeps_loading (env : Env) (t : String)
    (e : CaughtError) (h : env.state.token = some t) :
    (refreshToken env (RefreshNet.err e)).1.state.isLoading = true ∧
    (refreshToken env (RefreshNet.err e)).1.state.error = none := by
  simp [refreshToken, refreshIssue, h, refreshResolve, logOut, commit, callNet,
    partialize]

/-- Witness for C10: a network failure of the renewal from the authenticated
environment. -/
theorem refresh_failure_keeps_loading_witness :
    (refreshToken envAuth
        (RefreshNet.err CaughtError.axiosNoResponse)).1.state.isLoading =
      true ∧
    (refreshToken envAuth
        (RefreshNet.err CaughtError.axiosNoResponse)).1.state.error = none :=
  refresh_failure_keeps_loading envAuth "abc" CaughtError.axiosNoResponse
    (by decide)

end AuthFlow

